import Mathlib

/-!
Shallow embedding of `src/engagement_script.py` (InstaEngagement): the
engagement/quota tracker, proxy rotation, delay scheduling, the resilient
request wrapper, the active-follower sampler, the per-follower engagement
routines and the startup / exit-status paths, together with theorems settling
the specification claims.

Randomness (`random.uniform`, `random.choice`, `random.randint`) is modelled
by an explicit draw parameter; wall-clock inputs (`datetime.now().hour`,
post timestamps) are explicit arguments; file contents are explicit state.
-/

namespace InstaEngagement

/-! ## EngagementTracker (daily quota) -/

/-- Persisted `last_run.json` record: a date string and a count. -/
structure LastRun where
  date : String
  count : Nat
deriving DecidableEq

/-- In-memory tracker state (`EngagementTracker.likes_today`) together with
the content of the persisted `last_run.json` file. -/
structure TrackerState where
  likes_today : Nat
  file : LastRun
deriving DecidableEq

/-- Embedding of `EngagementTracker.reset_counters`: compare the persisted
date with today; on a mismatch start from zero (and write a zero record),
otherwise adopt the persisted count. -/
def reset_counters (data : LastRun) (today : String) : TrackerState :=
  if data.date ≠ today then
    { likes_today := 0, file := { date := today, count := 0 } }
  else
    { likes_today := data.count, file := data }

/-- Embedding of `EngagementTracker.increment_likes`: bump the in-memory
count and persist it only when the new count is a multiple of 10
(`save_last_run` writes today's date with the count). -/
def increment_likes (today : String) (s : TrackerState) : TrackerState :=
  let c := s.likes_today + 1
  { likes_today := c,
    file := if c % 10 = 0 then { date := today, count := c } else s.file }

/-- Embedding of the `EngagementTracker.limit_reached` property:
`likes_today >= 200`. -/
def limit_reached (s : TrackerState) : Bool :=
  decide (200 ≤ s.likes_today)

/-! ## ProxyManager -/

/-- Embedding of `ProxyManager.get_proxy`: on an empty pool return `none`;
otherwise return the entry at the cursor and advance the cursor modulo the
pool size. -/
def get_proxy (proxies : List String) (index : Nat) : Option String × Nat :=
  match proxies with
  | [] => (none, index)
  | _ :: _ => (proxies[index]?, (index + 1) % proxies.length)

/-- Cursor value after `n` calls, starting from the process-start cursor 0
(`self.index = 0` in `ProxyManager.__init__`). -/
def proxy_state_after (proxies : List String) : Nat → Nat
  | 0 => 0
  | n + 1 => (get_proxy proxies (proxy_state_after proxies n)).2

/-- Result of the `n`-th `get_proxy` call (0-based), starting from cursor 0. -/
def proxy_call_result (proxies : List String) (n : Nat) : Option String :=
  (get_proxy proxies (proxy_state_after proxies n)).1

/-! ## Delay scheduling -/

/-- The draw `random.uniform a b`, modelled by its unit draw `u ∈ [0,1]`. -/
def uniform (a b u : ℚ) : ℚ := a + u * (b - a)

/-- Embedding of `get_time_aware_delay`: during local hours `[8,20)` draw
from the base range with both endpoints scaled by `0.7`, otherwise with both
endpoints scaled by `1.3`. -/
def get_time_aware_delay (hour : Nat) (lo hi u : ℚ) : ℚ :=
  if 8 ≤ hour ∧ hour < 20 then uniform (lo * (7/10)) (hi * (7/10)) u
  else uniform (lo * (13/10)) (hi * (13/10)) u

/-- The sleep performed after a successful post or story like:
`time.sleep(random.uniform(30, 55))` in `process_posts` (line 345) and
`process_stories` (line 366). It does not consult the hour. -/
def engagement_sleep (u : ℚ) : ℚ := uniform 30 55 u

/-- Spec-side predicate for claim C3 (written from the specification's words,
for comparison with `engagement_sleep`): the post-engagement sleep lies in
`[21, 38.5]` during local hours `[8,20)` and in `[39, 71.5]` otherwise. -/
def c3_spec_bounds (hour : Nat) (d : ℚ) : Prop :=
  if 8 ≤ hour ∧ hour < 20 then 21 ≤ d ∧ d ≤ 77/2 else 39 ≤ d ∧ d ≤ 143/2

/-! ## AdaptiveSafeClient: the resilient request wrapper -/

/-- Outcome of one attempt of a wrapped platform operation, as classified by
the `except` clauses of `_secure_request`. -/
inductive Outcome where
  | success (v : Nat)
  | loginRequired
  | clientError
  | otherError
deriving DecidableEq

/-- Result of `_secure_request` as seen by its caller: a value, a re-raised
`ClientError`, the wrapped security exception, or no return within the given
recursion budget. -/
inductive ReqResult where
  | ok (v : Nat)
  | clientErr
  | securityExc
  | outOfFuel
deriving DecidableEq

/-- Embedding of `AdaptiveSafeClient._secure_request`, with the operation's
behaviour given as a trace of outcomes indexed by the attempt number: a
success returns the value unchanged; `LoginRequired` rotates the device,
re-authenticates and recursively calls `_secure_request` on the same
operation; `ClientError` rotates the device and re-raises; any other
exception is re-raised wrapped as the security exception. `fuel` bounds the
recursion depth of the model; the source imposes no bound of its own. -/
def secure_request (trace : Nat → Outcome) : Nat → Nat → ReqResult
  | _, 0 => .outOfFuel
  | attempt, fuel + 1 =>
    match trace attempt with
    | .success v => .ok v
    | .loginRequired => secure_request trace (attempt + 1) fuel
    | .clientError => .clientErr
    | .otherError => .securityExc

/-- A trace on which the wrapped operation fails with authentication-required
on the first two attempts and succeeds on the third. -/
def c2_trace : Nat → Outcome :=
  fun n => if n < 2 then .loginRequired else .success 7

/-! ## get_active_followers -/

/-- Combined outcome of the per-follower qualification checks
(`secure_user_info`, then `secure_user_stories` / `secure_user_medias`):
either the observed attributes, or an exception raised by any of them. -/
inductive CheckOutcome where
  | ok (is_private : Bool) (hasStory : Bool) (hasMedia : Bool)
  | err
deriving DecidableEq

/-- A follower qualifies when its checks succeeded, the profile is not
private, and it has an accessible story or at least one media item; an
exception during the checks means the follower is skipped. -/
def qualifies (lookup : Nat → CheckOutcome) (fid : Nat) : Bool :=
  match lookup fid with
  | .ok p s m => !p && (s || m)
  | .err => false

/-- The `for fid in followers` loop of `get_active_followers`: append a
qualifying follower to the accumulator, then break as soon as the collected
list has reached `limit` (the length check runs after the append). -/
def gaf_go (lookup : Nat → CheckOutcome) (limit : Nat) :
    List Nat → List Nat → List Nat
  | [], acc => acc
  | fid :: rest, acc =>
    let acc2 := if qualifies lookup fid then acc ++ [fid] else acc
    if limit ≤ acc2.length then acc2 else gaf_go lookup limit rest acc2

/-- Embedding of `AdaptiveSafeClient.get_active_followers` on an
already-fetched follower page (the id resolution and the
`secure_user_followers` fetch of up to 150 followers produce the `followers`
input). -/
def get_active_followers (lookup : Nat → CheckOutcome) (followers : List Nat)
    (limit : Nat) : List Nat :=
  gaf_go lookup limit followers []

/-! ## process_posts / process_stories -/

/-- The `POST_AGE_LIMIT_DAYS` configuration constant. -/
def POST_AGE_LIMIT_DAYS : Int := 15

/-- A media item: its id and its `taken_at` timestamp in seconds. -/
structure Post where
  id : Nat
  taken_at : Int
deriving DecidableEq

/-- Embedding of `is_recent_post`: the post is younger than the age limit
(timestamps in seconds). -/
def is_recent_post (now : Int) (p : Post) : Bool :=
  decide (now - p.taken_at < POST_AGE_LIMIT_DAYS * 86400)

/-- A story item: its id. -/
structure Story where
  id : Nat
deriving DecidableEq

/-- Outcome of one `_secure_request`-wrapped call as observed by its caller:
a returned value; an ordinary exception (a re-raised `ClientError`, the
wrapped security exception, or anything a mid-call `_login` re-raises short
of exiting) — all catchable by `except Exception`; a `SystemExit` from
`sys.exit(1)` when the re-login inside `_secure_request` fails with
`ClientError` — a `BaseException` that `except Exception` does not catch; or
no return at all, when the unbounded authentication retry of
`_secure_request` never succeeds. -/
inductive WrapResult (α : Type) where
  | ok (v : α)
  | exc
  | systemExit
  | diverge
deriving DecidableEq

/-- Whether a wrapped-call outcome is containable by the caller's
`try`/`except Exception`: a value or an ordinary exception is; a
`SystemExit` or a call that never returns is not. -/
def WrapResult.catchable {α : Type} : WrapResult α → Bool
  | .systemExit => false
  | .diverge => false
  | _ => true

/-- How one call of `process_posts` / `process_stories` ends: a normal
return; a `SystemExit` passing through the `except Exception` handler to the
caller; or no return, when a wrapped call inside never returns. -/
inductive RunResult (α : Type) where
  | ret (v : α)
  | exits
  | diverge
deriving DecidableEq

/-- Platform-call outcomes visible to one `process_posts` invocation: the
current time, the `secure_user_medias` result, the `secure_media_like`
outcome per media id, and the index drawn by `random.choice`. -/
structure PostEnv where
  now : Int
  medias : WrapResult (List Post)
  likeOutcome : Nat → WrapResult Unit
  pick : Nat

/-- Platform-call outcomes visible to one `process_stories` invocation. -/
structure StoryEnv where
  stories : WrapResult (List Story)
  likeOutcome : Nat → WrapResult Unit
  pick : Nat

/-- Embedding of `process_posts`: fetch up to 6 medias, keep the recent ones,
pick one at random, like it and increment the tracker. An ordinary exception
of a platform call is caught by the surrounding `try`/`except Exception` and
yields `0` with the tracker untouched; a `SystemExit` raised inside a wrapped
call passes that handler and propagates (the process exits), and a wrapped
call that never returns makes the whole routine never return. Logging and the
sleep are modelled as effect-free. -/
def process_posts (env : PostEnv) (today : String) (tracker : TrackerState) :
    RunResult (Nat × TrackerState) :=
  match env.medias with
  | .exc => .ret (0, tracker)
  | .systemExit => .exits
  | .diverge => .diverge
  | .ok posts =>
    match posts.filter (is_recent_post env.now) with
    | [] => .ret (0, tracker)
    | p :: ps =>
      let post := (p :: ps).getD (env.pick % (ps.length + 1)) p
      match env.likeOutcome post.id with
      | .exc => .ret (0, tracker)
      | .systemExit => .exits
      | .diverge => .diverge
      | .ok _ => .ret (1, increment_likes today tracker)

/-- Embedding of `process_stories`: fetch the stories, pick one at random,
like it and increment the tracker; wrapped-call outcomes are contained or
propagated exactly as in `process_posts`. -/
def process_stories (env : StoryEnv) (today : String) (tracker : TrackerState) :
    RunResult (Nat × TrackerState) :=
  match env.stories with
  | .exc => .ret (0, tracker)
  | .systemExit => .exits
  | .diverge => .diverge
  | .ok [] => .ret (0, tracker)
  | .ok (s :: ss) =>
    let story := (s :: ss).getD (env.pick % (ss.length + 1)) s
    match env.likeOutcome story.id with
    | .exc => .ret (0, tracker)
    | .systemExit => .exits
    | .diverge => .diverge
    | .ok _ => .ret (1, increment_likes today tracker)

/-- The failing input for claim C1: a follower with one recent, likeable
post. -/
def c1_env : PostEnv :=
  { now := 1000, medias := WrapResult.ok [{ id := 1, taken_at := 0 }],
    likeOutcome := fun _ => WrapResult.ok (), pick := 0 }

/-- Posts environment for the C10 counterexample: the `secure_user_medias`
call hits a `LoginRequired`, its re-login fails with `ClientError`, and
`_login` calls `sys.exit(1)` — a `SystemExit` that the routine's
`except Exception` does not catch. -/
def c10_exit_env : PostEnv :=
  { now := 1000, medias := WrapResult.systemExit,
    likeOutcome := fun _ => WrapResult.ok (), pick := 0 }

/-- Stories environment for the C10 counterexample: the like call is stuck in
the unbounded authentication retry of `_secure_request` and never returns. -/
def c10_div_senv : StoryEnv :=
  { stories := WrapResult.ok [{ id := 4 }],
    likeOutcome := fun _ => WrapResult.diverge, pick := 0 }

/-- Tracker state used by the C10 counterexample and witness. -/
def c10_tracker : TrackerState :=
  { likes_today := 3, file := { date := "2026-10-12", count := 0 } }

/-- All-catchable posts environment for the C10 witness. -/
def c10_ok_penv : PostEnv :=
  { now := 1000, medias := WrapResult.ok [{ id := 1, taken_at := 0 }],
    likeOutcome := fun _ => WrapResult.ok (), pick := 0 }

/-- All-catchable stories environment for the C10 witness. -/
def c10_ok_senv : StoryEnv :=
  { stories := WrapResult.ok [], likeOutcome := fun _ => WrapResult.ok (),
    pick := 0 }

/-- The failing tracker state for claim C1: the daily count already at the
200 limit. -/
def c1_tracker : TrackerState :=
  { likes_today := 200, file := { date := "2026-10-12", count := 200 } }

/-! ## Startup and process exit status -/

/-- Outcome of `json.load` on the persisted session file. -/
inductive JsonRead where
  | ok
  | decodeErr
deriving DecidableEq

/-- Outcome of resolving the account id through the persisted session, as it
leaves `_secure_request`: success; a re-raised `ClientError`; an unclassified
exception wrapped as the (uncaught) security exception; a `LoginRequired`
handled inside `_secure_request` whose re-login fails with `ClientError`,
hitting `sys.exit(1)` in `_login`; or a resolution stuck in the unbounded
authentication retry, never returning. -/
inductive ResolveSec where
  | ok
  | clientErr
  | securityExc
  | reloginClientErrExit
  | diverge
deriving DecidableEq

/-- Outcome of the first `login(USERNAME, PASSWORD)` call in `_login`. -/
inductive FirstLogin where
  | ok
  | twoFactor
  | clientErr
  | otherErr
deriving DecidableEq

/-- Outcome of the 2FA retry `login(USERNAME, PASSWORD, verification_code)`
call, raised inside the `except TwoFactorRequired` handler. -/
inductive SecondLogin where
  | ok
  | clientErr
  | otherErr
deriving DecidableEq

/-- Where the startup path ends: login established and the run proceeds;
`sys.exit(1)`; an exception that nothing catches (the constructor call in
`main` sits outside its `try` block), terminating the process non-zero; or no
return at all, when a startup call never returns. -/
inductive StartStatus where
  | proceed
  | exitOne
  | crash
  | never
deriving DecidableEq

/-- Process exit: an explicit exit code, an abnormal (non-zero) termination
by an uncaught exception, or no exit at all (the process never
terminates). -/
inductive ExitStatus where
  | code (n : Nat)
  | crash
  | never
deriving DecidableEq

/-- How processing one target account ends inside `main`'s per-account loop:
it completes — `failed` marks an account whose processing raised an ordinary
exception, caught by the loop's `except Exception` — or a wrapped call's
mid-run re-login fails with `ClientError` and `sys.exit(1)` raises a
`SystemExit` that both `except Exception` handlers let through, or a wrapped
call is stuck in the unbounded authentication retry and never returns. -/
inductive AccountOutcome where
  | done (failed : Bool)
  | sysExit
  | diverge
deriving DecidableEq

/-- Whether the per-account loop moves past this account. -/
def AccountOutcome.completes : AccountOutcome → Bool
  | .done _ => true
  | _ => false

/-- The run phase of `main` over the per-account outcomes in processing
order: ordinary per-account failures are caught and the loop continues; on a
`SystemExit` the `finally` block still runs and the process exits 1; on a
never-returning account the process never exits; when every account
completes, `main` returns and the process exits 0. -/
def run_accounts : List AccountOutcome → ExitStatus
  | [] => .code 0
  | .done _ :: rest => run_accounts rest
  | .sysExit :: _ => .code 1
  | .diverge :: _ => .never

/-- Startup environment and run: whether a session file exists, the outcomes
of the file read, the session resolution and the credential logins, and the
per-account outcomes of the run phase. -/
structure StartEnv where
  sessionFileExists : Bool
  jsonRead : JsonRead
  resolveSec : ResolveSec
  firstLogin : FirstLogin
  secondLogin : SecondLogin
  run : List AccountOutcome

/-- Embedding of `_login`: a `ClientError` on the credential login calls
`sys.exit(1)`; a `TwoFactorRequired` prompts for a code and retries, and any
failure of that retry propagates uncaught (it is raised inside the
`except TwoFactorRequired` handler); any other exception propagates
uncaught. -/
def login_flow (l1 : FirstLogin) (l2 : SecondLogin) : StartStatus :=
  match l1 with
  | .ok => .proceed
  | .clientErr => .exitOne
  | .otherErr => .crash
  | .twoFactor =>
    match l2 with
    | .ok => .proceed
    | .clientErr => .crash
    | .otherErr => .crash

/-- Embedding of `_load_session`: with a session file present, a JSON decode
error or a `ClientError` from the resolution falls through to `_login`; a
successful resolution proceeds; the wrapped security exception propagates
uncaught; without a session file, go straight to `_login`. -/
def load_session (e : StartEnv) : StartStatus :=
  if e.sessionFileExists then
    match e.jsonRead with
    | .decodeErr => login_flow e.firstLogin e.secondLogin
    | .ok =>
      match e.resolveSec with
      | .ok => .proceed
      | .clientErr => login_flow e.firstLogin e.secondLogin
      | .securityExc => .crash
      | .reloginClientErrExit => .exitOne
      | .diverge => .never
  else login_flow e.firstLogin e.secondLogin

/-- Embedding of the process exit behaviour of `main`: startup may call
`sys.exit(1)`, die on an uncaught exception, or never return; once startup
proceeds, the per-account loop catches ordinary exceptions only, so the run
phase decides the exit as in `run_accounts` — in particular a mid-run
`SystemExit` from a failed re-login exits the process 1 after a successful
startup, with the `finally` block still running. -/
def main_exit_status (e : StartEnv) : ExitStatus :=
  match load_session e with
  | .proceed => run_accounts e.run
  | .exitOne => .code 1
  | .crash => .crash
  | .never => .never

/-- Whether the startup path reaches the fresh credential login `_login`:
no session file, an unreadable session file, or a `ClientError` while
resolving the persisted session. -/
def login_attempted (e : StartEnv) : Bool :=
  if e.sessionFileExists then
    match e.jsonRead with
    | .decodeErr => true
    | .ok =>
      match e.resolveSec with
      | .clientErr => true
      | _ => false
  else true

/-- Startup environment for the C4 counterexample: a persisted session file
exists, its JSON parses, and resolving the account id through it fails with
an unclassified error, which `_secure_request` wraps into the security
exception that nothing catches. No login is ever attempted. -/
def c4_bad_env : StartEnv :=
  { sessionFileExists := true, jsonRead := .ok, resolveSec := .securityExc,
    firstLogin := .ok, secondLogin := .ok, run := [] }

/-- Startup environment for the C4 witness: no session file, a successful
credential login, and a run in which one account failed with a caught
exception. -/
def c4_ok_env : StartEnv :=
  { sessionFileExists := false, jsonRead := .ok, resolveSec := .ok,
    firstLogin := .ok, secondLogin := .ok, run := [.done true] }

/-! ## Theorems: quota, proxy rotation, delays -/

/-- Claim C6: loading a quota record saved under date `d1` while the current
date is `d2 ≠ d1` yields a fresh state whose in-memory count is 0. -/
theorem c6_date_mismatch_fresh (d1 d2 : String) (c : Nat) (h : d1 ≠ d2) :
    (reset_counters { date := d1, count := c } d2).likes_today = 0 := by
  simp [reset_counters, h]

/-- Witness for C6 at concrete dates. -/
theorem c6_date_mismatch_fresh_witness :
    "2026-10-11" ≠ "2026-10-12" ∧
    (reset_counters { date := "2026-10-11", count := 150 } "2026-10-12").likes_today
      = 0 :=
  ⟨by decide, c6_date_mismatch_fresh "2026-10-11" "2026-10-12" 150 (by decide)⟩

/-- Claim C7: from a fresh day with count 0, nine consecutive increments
leave the persisted file unchanged while the in-memory count reaches 9; the
tenth increment is the first one that writes. -/
theorem c7_persistence_cadence (today : String) (f : LastRun) :
    (increment_likes today)^[9] { likes_today := 0, file := f }
      = { likes_today := 9, file := f } ∧
    (increment_likes today)^[10] { likes_today := 0, file := f }
      = { likes_today := 10, file := { date := today, count := 10 } } := by
  constructor
  · rfl
  · simp [Function.iterate_succ_apply, increment_likes]

/-- Helper: starting from cursor 0 on a non-empty pool, the cursor after `n`
calls is `n` modulo the pool size. -/
theorem proxy_state_after_mod (a : String) (l : List String) (n : Nat) :
    proxy_state_after (a :: l) n = n % (a :: l).length := by
  induction n with
  | zero => simp [proxy_state_after]
  | succ n ih => simp [proxy_state_after, get_proxy, ih, Nat.mod_add_mod]

/-- Claim C8: starting from cursor 0, call number `n` returns the pool entry
at index `n % N`. Hence for `N ≥ 1` every window of `N` consecutive calls
returns each entry exactly once in pool order, cycling indefinitely with the
cursor wrapping modulo `N`; and for the empty pool (`N = 0`) every call
returns `none`. -/
theorem c8_round_robin (proxies : List String) (n : Nat) :
    proxy_call_result proxies n = proxies[n % proxies.length]? := by
  cases proxies with
  | nil => simp [proxy_call_result, get_proxy]
  | cons a l => simp [proxy_call_result, get_proxy, proxy_state_after_mod]

/-- Claim C9: for any valid base range (`lo ≤ hi`) and any unit draw, the
computed delay lies in `[0.7·lo, 0.7·hi]` during local hours `[8,20)` and in
`[1.3·lo, 1.3·hi]` otherwise. -/
theorem c9_delay_bounds (hour : Nat) (lo hi u : ℚ)
    (hr : lo ≤ hi) (h0 : 0 ≤ u) (h1 : u ≤ 1) :
    (8 ≤ hour ∧ hour < 20 →
      lo * (7/10) ≤ get_time_aware_delay hour lo hi u ∧
      get_time_aware_delay hour lo hi u ≤ hi * (7/10)) ∧
    (¬ (8 ≤ hour ∧ hour < 20) →
      lo * (13/10) ≤ get_time_aware_delay hour lo hi u ∧
      get_time_aware_delay hour lo hi u ≤ hi * (13/10)) := by
  have key1 : 0 ≤ u * (hi - lo) := mul_nonneg h0 (sub_nonneg.mpr hr)
  have key2 : 0 ≤ (1 - u) * (hi - lo) :=
    mul_nonneg (sub_nonneg.mpr h1) (sub_nonneg.mpr hr)
  constructor
  · intro hpeak
    unfold get_time_aware_delay uniform
    rw [if_pos hpeak]
    constructor <;> nlinarith
  · intro hoff
    unfold get_time_aware_delay uniform
    rw [if_neg hoff]
    constructor <;> nlinarith

/-- Witness for C9 at hour 10, base range `[30,55]`, draw `1/2`. -/
theorem c9_delay_bounds_witness :
    (30 : ℚ) * (7/10) ≤ get_time_aware_delay 10 30 55 (1/2) ∧
    get_time_aware_delay 10 30 55 (1/2) ≤ 55 * (7/10) :=
  (c9_delay_bounds 10 30 55 (1/2) (by norm_num) (by norm_num) (by norm_num)).1
    (by decide)

/-- Claim C3 counterexample: at local hour 10 (inside `[8,20)`), the code's
post-engagement sleep with draw `u = 9/10` lasts `52.5` seconds, outside the
claimed peak-hours interval `[21, 38.5]`: the code applies no time-of-day
scaling to the post/story sleep. -/
theorem c3_counterexample :
    engagement_sleep (9/10) = 105/2 ∧
    ¬ c3_spec_bounds 10 (engagement_sleep (9/10)) := by
  constructor
  · norm_num [engagement_sleep, uniform]
  · norm_num [c3_spec_bounds, engagement_sleep, uniform]

/-- Claim C3 (amended): the sleep performed after a successful engagement
action is drawn from the fixed base range `[30,55]` seconds with no
time-of-day scaling (the `engagement_sleep` of the code takes no hour
input). -/
theorem c3_fixed_range (u : ℚ) (h0 : 0 ≤ u) (h1 : u ≤ 1) :
    30 ≤ engagement_sleep u ∧ engagement_sleep u ≤ 55 := by
  unfold engagement_sleep uniform
  constructor <;> nlinarith

/-- Witness for the amended C3 at draw `1/2`. -/
theorem c3_fixed_range_witness :
    30 ≤ engagement_sleep (1/2) ∧ engagement_sleep (1/2) ≤ 55 :=
  c3_fixed_range (1/2) (by norm_num) (by norm_num)

/-! ## Theorems: resilient request wrapper -/

/-- Claim C2 counterexample: on a trace whose first two attempts fail with
authentication-required, the executor does not propagate the second failure
to the caller — it retries a second time and returns the third attempt's
success, contradicting the claimed at-most-one retry. -/
theorem c2_counterexample : secure_request c2_trace 0 10 = .ok 7 := by
  decide

/-- Claim C2 (amended): the retry on authentication-required failures is
unbounded — on a trace failing with authentication-required at every attempt
the executor never returns, whatever the recursion budget, and a success
after any number `k` of consecutive authentication failures is still
returned rather than propagated. -/
theorem c2_unbounded_retry :
    (∀ fuel attempt,
      secure_request (fun _ => Outcome.loginRequired) attempt fuel
        = .outOfFuel) ∧
    (∀ k v fuel attempt, k ≤ attempt + fuel →
      secure_request
        (fun n => if n < k then Outcome.loginRequired else .success v)
        attempt (fuel + 1) = .ok v) := by
  constructor
  · intro fuel
    induction fuel with
    | zero => intro attempt; rfl
    | succ f ih =>
        intro attempt
        simpa [secure_request] using ih (attempt + 1)
  · intro k v fuel
    induction fuel with
    | zero =>
        intro attempt hk
        have hlt : ¬ attempt < k := by omega
        simp [secure_request, hlt]
    | succ f ih =>
        intro attempt hk
        by_cases hlt : attempt < k
        · have step :
              secure_request
                (fun n => if n < k then Outcome.loginRequired else .success v)
                attempt (f + 1 + 1)
              = secure_request
                  (fun n => if n < k then Outcome.loginRequired else .success v)
                  (attempt + 1) (f + 1) := by
            simp [secure_request, hlt]
          rw [step]
          exact ih (attempt + 1) (by omega)
        · simp [secure_request, hlt]

/-- Witness for the amended C2: three consecutive authentication failures,
then a success that is still returned. -/
theorem c2_unbounded_retry_witness :
    secure_request
      (fun n => if n < 3 then Outcome.loginRequired else .success 5) 0 5
      = .ok 5 :=
  c2_unbounded_retry.2 3 5 4 0 (by omega)

/-! ## Theorems: follower sampler -/

/-- Helper: the sampling loop collects, in order, the qualifying followers of
the remaining page until the accumulator reaches `limit`. -/
theorem gaf_go_eq (lookup : Nat → CheckOutcome) (limit : Nat)
    (rest : List Nat) :
    ∀ acc : List Nat, acc.length < limit →
      gaf_go lookup limit rest acc
        = acc ++ (rest.filter (qualifies lookup)).take (limit - acc.length) := by
  induction rest with
  | nil => intro acc h; simp [gaf_go]
  | cons fid rest ih =>
      intro acc h
      by_cases hq : qualifies lookup fid = true
      · by_cases hl : limit ≤ acc.length + 1
        · have hlim : limit - acc.length = 1 := by omega
          simp [gaf_go, hq, hl, hlim, List.filter_cons, List.take_succ_cons]
        · have hstep : (acc ++ [fid]).length < limit := by
            simp only [List.length_append, List.length_cons, List.length_nil]
            omega
          have hsub : limit - acc.length = (limit - (acc.length + 1)) + 1 := by
            omega
          have hrec := ih (acc ++ [fid]) hstep
          simp only [List.length_append, List.length_cons, List.length_nil]
            at hrec
          simp [gaf_go, hq, hl, hrec, List.filter_cons, hsub,
            List.take_succ_cons]
      · have hl : ¬ limit ≤ acc.length := by omega
        have hrec := ih acc h
        simp [gaf_go, hq, hl, hrec, List.filter_cons]

/-- Claim C5 (amended to positive limits): for every `limit ≥ 1` the sampler
returns exactly the first `limit` qualifying followers in encounter order —
hence at most `limit` candidates, none of them one whose qualification checks
failed, stopping as soon as `limit` are collected or the page is
exhausted. -/
theorem c5_bounded_sampler (lookup : Nat → CheckOutcome) (followers : List Nat)
    (limit : Nat) (h : 1 ≤ limit) :
    get_active_followers lookup followers limit
        = (followers.filter (qualifies lookup)).take limit ∧
    (get_active_followers lookup followers limit).length ≤ limit ∧
    ∀ fid ∈ get_active_followers lookup followers limit, lookup fid ≠ .err := by
  have key : get_active_followers lookup followers limit
      = (followers.filter (qualifies lookup)).take limit := by
    have hh := gaf_go_eq lookup limit followers [] (by simpa using h)
    simpa [get_active_followers] using hh
  refine ⟨key, ?_, ?_⟩
  · rw [key]; exact List.length_take_le limit _
  · intro fid hf hcontra
    rw [key] at hf
    have hmem := List.mem_of_mem_take hf
    have hq := List.of_mem_filter hmem
    simp [qualifies, hcontra] at hq

/-- Witness for the amended C5 on a concrete page and limit. -/
theorem c5_bounded_sampler_witness :
    get_active_followers (fun _ => CheckOutcome.ok false true false) [1, 2, 3] 2
      = ([1, 2, 3].filter
          (qualifies (fun _ => CheckOutcome.ok false true false))).take 2 :=
  (c5_bounded_sampler (fun _ => CheckOutcome.ok false true false) [1, 2, 3] 2
    (by omega)).1

/-- Claim C5 counterexample: with `limit = 0` the length bound fails — a
qualifying follower is appended before the break check runs, so the call
returns one candidate, which is more than the limit. -/
theorem c5_counterexample :
    get_active_followers (fun _ => CheckOutcome.ok false true false) [5] 0 = [5] ∧
    ¬ (get_active_followers
        (fun _ => CheckOutcome.ok false true false) [5] 0).length ≤ 0 := by
  constructor <;> decide

/-! ## Theorems: engagement routines and the daily cap -/

/-- Claim C1 fails on the code: with the daily count already at 200
(`limit_reached` is true) the orchestrator still performs the like and the
increment raises the count to 201 — the `limit_reached` property is defined
but never consulted by `process_posts`, `process_stories`,
`process_target_account` or `main`. -/
theorem c1_quota_not_enforced :
    limit_reached c1_tracker = true ∧
    process_posts c1_env "2026-10-12" c1_tracker
      = .ret (1, { likes_today := 201,
                   file := { date := "2026-10-12", count := 200 } }) := by
  constructor <;> rfl

/-- Claim C10 counterexample: the routines are not exception-proof over every
outcome of the wrapped calls. When `secure_user_medias` hits a
`LoginRequired` whose re-login fails with `ClientError`, `sys.exit(1)` raises
a `SystemExit` that passes the routine's `except Exception` and propagates to
the caller instead of returning 0; and when the story-like call is stuck in
the unbounded authentication retry, `process_stories` never returns at
all. -/
theorem c10_counterexample :
    process_posts c10_exit_env "2026-10-12" c10_tracker = .exits ∧
    process_stories c10_div_senv "2026-10-12" c10_tracker = .diverge := by
  constructor <;> rfl

/-- Claim C10 (amended): whenever every wrapped call involved either returns
or raises an ordinary (catchable) exception, `process_posts` and
`process_stories` propagate nothing and each returns `0` with the tracker
untouched or `1` with the tracker incremented exactly once — `1` exactly when
the like went through and the quota was incremented. The two outcomes
excluded by the hypotheses escape by design of the source: a `SystemExit`
from a failed mid-run re-login propagates, and a call stuck in the unbounded
authentication retry never returns. -/
theorem c10_catchable_no_propagation (penv : PostEnv) (senv : StoryEnv)
    (today : String) (t : TrackerState)
    (hp : penv.medias.catchable = true)
    (hpl : ∀ i, (penv.likeOutcome i).catchable = true)
    (hs : senv.stories.catchable = true)
    (hsl : ∀ i, (senv.likeOutcome i).catchable = true) :
    (process_posts penv today t = .ret (0, t) ∨
      process_posts penv today t = .ret (1, increment_likes today t)) ∧
    (process_stories senv today t = .ret (0, t) ∨
      process_stories senv today t = .ret (1, increment_likes today t)) ∧
    (increment_likes today t).likes_today = t.likes_today + 1 := by
  refine ⟨?_, ?_, rfl⟩
  · cases hm : penv.medias with
    | ok posts =>
        rcases hf : posts.filter (is_recent_post penv.now) with _ | ⟨p, ps⟩
        · simp [process_posts, hm, hf]
        · simp only [process_posts, hm, hf]
          have hl := hpl (((p :: ps).getD (penv.pick % (ps.length + 1)) p).id)
          cases hor : penv.likeOutcome
              (((p :: ps).getD (penv.pick % (ps.length + 1)) p).id) with
          | ok u => exact Or.inr rfl
          | exc => exact Or.inl rfl
          | systemExit => rw [hor] at hl; simp [WrapResult.catchable] at hl
          | diverge => rw [hor] at hl; simp [WrapResult.catchable] at hl
    | exc => simp [process_posts, hm]
    | systemExit => rw [hm] at hp; simp [WrapResult.catchable] at hp
    | diverge => rw [hm] at hp; simp [WrapResult.catchable] at hp
  · cases hst : senv.stories with
    | ok stories =>
        rcases stories with _ | ⟨s, ss⟩
        · simp [process_stories, hst]
        · simp only [process_stories, hst]
          have hl := hsl (((s :: ss).getD (senv.pick % (ss.length + 1)) s).id)
          cases hor : senv.likeOutcome
              (((s :: ss).getD (senv.pick % (ss.length + 1)) s).id) with
          | ok u => exact Or.inr rfl
          | exc => exact Or.inl rfl
          | systemExit => rw [hor] at hl; simp [WrapResult.catchable] at hl
          | diverge => rw [hor] at hl; simp [WrapResult.catchable] at hl
    | exc => simp [process_stories, hst]
    | systemExit => rw [hst] at hs; simp [WrapResult.catchable] at hs
    | diverge => rw [hst] at hs; simp [WrapResult.catchable] at hs

/-- Witness for the amended C10 on all-catchable environments. -/
theorem c10_catchable_no_propagation_witness :
    (process_posts c10_ok_penv "2026-10-12" c10_tracker
        = .ret (0, c10_tracker) ∨
      process_posts c10_ok_penv "2026-10-12" c10_tracker
        = .ret (1, increment_likes "2026-10-12" c10_tracker)) ∧
    (process_stories c10_ok_senv "2026-10-12" c10_tracker
        = .ret (0, c10_tracker) ∨
      process_stories c10_ok_senv "2026-10-12" c10_tracker
        = .ret (1, increment_likes "2026-10-12" c10_tracker)) ∧
    (increment_likes "2026-10-12" c10_tracker).likes_today
      = c10_tracker.likes_today + 1 :=
  c10_catchable_no_propagation c10_ok_penv c10_ok_senv "2026-10-12"
    c10_tracker rfl (fun _ => rfl) rfl (fun _ => rfl)

/-! ## Theorems: startup and exit status -/

/-- Claim C4 counterexample: the process terminates with a non-zero status
(an uncaught security exception while resolving the persisted session) even
though no authentication failure during initial login occurred — no login was
attempted at all. -/
theorem c4_counterexample :
    main_exit_status c4_bad_env = .crash ∧
    main_exit_status c4_bad_env ≠ .code 0 ∧
    login_attempted c4_bad_env = false := by
  decide

/-- Helper: the run phase exits 0 exactly when every account completes
(possibly with a caught per-account failure). -/
theorem run_accounts_code_zero (l : List AccountOutcome) :
    run_accounts l = .code 0 ↔ ∀ a ∈ l, a.completes = true := by
  induction l with
  | nil => simp [run_accounts]
  | cons a rest ih =>
      cases a with
      | done b => simp [run_accounts, ih, AccountOutcome.completes]
      | sysExit => simp [run_accounts, AccountOutcome.completes]
      | diverge => simp [run_accounts, AccountOutcome.completes]

/-- Claim C4 (amended): the process exits 0 exactly when startup proceeds and
every account of the run completes — caught per-account failures included.
It exits 1 via `sys.exit` on a `ClientError` during the first credential
login, during the re-login forced while resolving a persisted session, and
during a re-login forced by any wrapped call mid-run, whose `SystemExit`
passes both `except Exception` handlers (the `finally` block still runs). It
terminates non-zero via an uncaught exception on the wrapped security
exception from an unclassified session-resolution failure, on a non-2FA
non-client login exception, and on any failure of the 2FA retry login; and it
never exits when a wrapped call retries authentication forever. -/
theorem c4_exit_characterization (e : StartEnv) :
    (load_session e = .exitOne → main_exit_status e = .code 1) ∧
    (load_session e = .crash → main_exit_status e = .crash) ∧
    (load_session e = .never → main_exit_status e = .never) ∧
    (load_session e = .proceed → main_exit_status e = run_accounts e.run) ∧
    (main_exit_status e = .code 0 ↔
      load_session e = .proceed ∧ ∀ a ∈ e.run, a.completes = true) ∧
    (∀ b rest, run_accounts (.done b :: rest) = run_accounts rest) ∧
    (∀ rest, run_accounts (.sysExit :: rest) = .code 1) ∧
    (∀ rest, run_accounts (.diverge :: rest) = .never) := by
  refine ⟨?_, ?_, ?_, ?_, ?_, fun b rest => rfl, fun rest => rfl,
    fun rest => rfl⟩ <;>
    cases h : load_session e <;>
      simp [main_exit_status, h, run_accounts_code_zero]

/-- Witness for the amended C4: a successful fresh login followed by a run in
which one account failed with a caught exception still exits 0. -/
theorem c4_exit_characterization_witness :
    main_exit_status c4_ok_env = .code 0 :=
  (c4_exit_characterization c4_ok_env).2.2.2.2.1.mpr ⟨rfl, by decide⟩

end InstaEngagement
